import Mathlib

/-
  Shallow embedding of `cp_dataset.py` (CP-VTON data preparation).

  The module has two components:
  * `CPDataset` (the spec's SampleBuilder): `__getitem__` loads the cloth
    image and mask, the person image, the segmentation raster and the pose
    keypoint record, and assembles normalized tensors.
  * `CPDataLoader` (the spec's BatchSequencer): `next_batch` wraps a torch
    DataLoader iterator and transparently restarts it on `StopIteration`.

  Images are modelled as rasters with explicit dimensions and a total pixel
  function over byte values (`Nat`, 0..255); normalized tensors carry
  rational (`ℚ`) values.  File contents are supplied through an explicit
  file-system record `FS` mapping names to already-decoded assets (the
  claims under study presuppose that every asset exists and decodes; the
  AssetNotFound / ParseError paths are outside their scope).  Operations
  that `torch` makes fallible at runtime (list indexing, shape-mismatched
  broadcasting / concatenation) are modelled with `Except`.
-/

namespace CPVTON

/-- A single-channel raster of byte values (PIL mode `L`, or the integer
segmentation label raster).  `pix y x` is the value at row `y`, column `x`. -/
structure Gray where
  height : Nat
  width : Nat
  pix : Nat → Nat → Nat

/-- A three-channel byte image (PIL mode `RGB`): `pix c y x` is channel `c`
at row `y`, column `x`. -/
structure ImgRGB where
  height : Nat
  width : Nat
  pix : Nat → Nat → Nat → Nat

/-- A floating tensor of shape (channels, height, width), values in `ℚ`
(the code's float32 values are modelled exactly as rationals). -/
structure Tensor3 where
  channels : Nat
  height : Nat
  width : Nat
  val : Nat → Nat → Nat → ℚ

/-- `transforms.ToTensor()`: byte `v` becomes `v / 255`. -/
def toTensor (v : Nat) : ℚ := (v : ℚ) / 255

/-- `transforms.Normalize((0.5,0.5,0.5), (0.5,0.5,0.5))` applied to one value. -/
def normalizeQ (x : ℚ) : ℚ := (x - 1/2) / (1/2)

/-- `self.transform` (lines 27-30): ToTensor followed by Normalize, applied
channel-wise to an RGB byte image. -/
def transform (img : ImgRGB) : Tensor3 :=
  { channels := 3, height := img.height, width := img.width,
    val := fun c y x => normalizeQ (toTensor (img.pix c y x)) }

/-- PIL `convert('RGB')` of a grayscale image replicates the channel. -/
def grayToRGB (g : Gray) : ImgRGB :=
  { height := g.height, width := g.width, pix := fun _ y x => g.pix y x }

/-- Lines 64-67: `(cm_array >= 128).astype(np.float32)` then `unsqueeze_(0)`:
the binarized cloth mask as a (1, h, w) tensor. -/
def maskTensor (g : Gray) : Tensor3 :=
  { channels := 1, height := g.height, width := g.width,
    val := fun _ y x => if 128 ≤ g.pix y x then 1 else 0 }

/-- Clamp an integer index into `[0, n-1]` (used for border replication when
sampling outside the source raster during interpolation). -/
def clampIdx (n : Nat) (i : Int) : Nat :=
  if i < 0 then 0 else if (n : Int) - 1 < i then n - 1 else i.toNat

/-- Read a pixel with border clamping. -/
def pixC (g : Gray) (y x : Int) : Nat := g.pix (clampIdx g.height y) (clampIdx g.width x)

/-- PIL `Image.resize((w, h), Image.BILINEAR)` (lines 90-91).  Modelled as
standard half-pixel-centre bilinear interpolation over exact rationals with
border clamping and round-to-nearest back to bytes; only the output
dimensions of this operation are relied upon by the development. -/
def resizeBilinear (g : Gray) (w h : Nat) : Gray :=
  { height := h, width := w,
    pix := fun y x =>
      let sx : ℚ := ((x : ℚ) + 1/2) * (g.width : ℚ) / (w : ℚ) - 1/2
      let sy : ℚ := ((y : ℚ) + 1/2) * (g.height : ℚ) / (h : ℚ) - 1/2
      let x0 : Int := ⌊sx⌋
      let y0 : Int := ⌊sy⌋
      let fx : ℚ := sx - (x0 : ℚ)
      let fy : ℚ := sy - (y0 : ℚ)
      let v : ℚ :=
        (1 - fy) * ((1 - fx) * (pixC g y0 x0 : ℚ) + fx * (pixC g y0 (x0 + 1) : ℚ)) +
        fy * ((1 - fx) * (pixC g (y0 + 1) x0 : ℚ) + fx * (pixC g (y0 + 1) (x0 + 1) : ℚ))
      (⌊v + 1/2⌋).toNat }

/-- `shape[0:1, :, :]` (line 99): keep only the first channel. -/
def sliceFirst (t : Tensor3) : Tensor3 :=
  { channels := 1, height := t.height, width := t.width,
    val := fun _ y x => t.val 0 y x }

/-- A 0/1-valued indicator as a rational (numpy boolean `astype(np.float32)`). -/
def indQ (b : Prop) [Decidable b] : ℚ := if b then 1 else 0

/-- Lines 80-83: `parse_head` as the sum of the four label-equality
indicator rasters, evaluated at one pixel. -/
def pheadAt (p : Gray) (y x : Nat) : ℚ :=
  indQ (p.pix y x = 1) + indQ (p.pix y x = 2) + indQ (p.pix y x = 4) + indQ (p.pix y x = 13)

/-- Lines 84-86: `parse_cloth` as the sum of the three label-equality
indicator rasters, evaluated at one pixel. -/
def pcmAt (p : Gray) (y x : Nat) : ℚ :=
  indQ (p.pix y x = 5) + indQ (p.pix y x = 6) + indQ (p.pix y x = 7)

/-- `Image.new('L', (w, h))`: an all-zero canvas. -/
def blankCanvas (h w : Nat) : Gray :=
  { height := h, width := w, pix := fun _ _ => 0 }

/-- Lines 121-125: one keypoint's canvas.  A fresh blank canvas; when both
coordinates exceed 1 a white (255) square of half-width `r` centred at
(pointx, pointy) is drawn (`draw.rectangle` paints the closed rectangle;
PIL's sub-pixel coordinate handling is modelled by rational comparison). -/
def oneMap (h w r : Nat) (px py : ℚ) : Gray :=
  if 1 < px ∧ 1 < py then
    { height := h, width := w,
      pix := fun y x =>
        if px - r ≤ (x : ℚ) ∧ (x : ℚ) ≤ px + r ∧ py - r ≤ (y : ℚ) ∧ (y : ℚ) ≤ py + r
        then 255 else 0 }
  else blankCanvas h w

/-- Keypoint `i` of the record, as the code's `pose_data[i]` (row of the
(n, 3) array of (x, y, confidence) triples). -/
def ptAt (pose : List (ℚ × ℚ × ℚ)) (i : Nat) : ℚ × ℚ × ℚ := pose.getD i (0, 0, 0)

/-- Lines 115-132: `pose_map = torch.zeros(18, H, W)`, then for each
`i < min 18 point_num` the channel is overwritten with channel 0 of the
transformed (RGB-converted, normalized) one-point canvas; channels with
`i ≥ min 18 point_num` keep their initial zeros. -/
def poseMap (h w r : Nat) (pose : List (ℚ × ℚ × ℚ)) : Tensor3 :=
  { channels := 18, height := h, width := w,
    val := fun i y x =>
      if i < min 18 pose.length then
        normalizeQ (toTensor ((oneMap h w r (ptAt pose i).1 (ptAt pose i).2.1).pix y x))
      else 0 }

/-- `torch.cat([a, b, c], 0)` (line 142), channel-axis concatenation.  The
spatial dimensions are taken from the first tensor; the caller (`getItem`)
guards the shape compatibility torch would enforce at runtime. -/
def cat3 (a b c : Tensor3) : Tensor3 :=
  { channels := a.channels + b.channels + c.channels,
    height := a.height, width := a.width,
    val := fun ch y x =>
      if ch < a.channels then a.val ch y x
      else if ch < a.channels + b.channels then b.val (ch - a.channels) y x
      else c.val (ch - a.channels - b.channels) y x }

/-- Python `str.replace(pat, repl)` on character lists: every non-overlapping
occurrence of `pat`, scanned left to right, is replaced by `repl`.  (For the
empty pattern, which the code never uses, this is the identity.) -/
def replaceAll (pat repl : List Char) : List Char → List Char
  | [] => []
  | c :: rest =>
    if pat ≠ [] ∧ pat <+: (c :: rest) then
      repl ++ replaceAll pat repl (rest.drop (pat.length - 1))
    else
      c :: replaceAll pat repl rest
termination_by l => l.length
decreasing_by
  · simp only [List.length_drop, List.length_cons]; omega
  · simp only [List.length_cons]; omega

/-- Python `s.replace(pat, repl)` on strings. -/
def pyReplace (s pat repl : String) : String :=
  String.mk (replaceAll pat.data repl.data s.data)

/-- Line 76: `parse_name = im_name.replace('.jpg', '.png')`. -/
def parse_name (im_name : String) : String := pyReplace im_name ".jpg" ".png"

/-- Line 109: `pose_name = im_name.replace('.jpg', '_keypoints.json')`. -/
def pose_name (im_name : String) : String := pyReplace im_name ".jpg" "_keypoints.json"

/-- The recognized command-line options (the `opt` namespace of the `__main__`
block), with the parsed contents of the pair-list file inlined as `pairs`
(each line of the list file holds "im_name c_name"). -/
structure Options where
  dataroot : String
  datamode : String
  stage : String
  data_list : String
  fine_height : Nat
  fine_width : Nat
  radius : Nat
  shuffle : Bool
  batch_size : Nat
  workers : Nat
  pairs : List (String × String)

/-- The dataset object state after `CPDataset.__init__` (lines 15-42). -/
structure CPDataset where
  root : String
  datamode : String
  stage : String
  data_list : String
  fine_height : Nat
  fine_width : Nat
  radius : Nat
  im_names : List String
  c_names : List String

/-- `CPDataset.__init__`: stores the configuration unconditionally (no
validation of any option, in particular not of `stage`) and splits the pair
list into the two parallel name lists. -/
def mkCPDataset (opt : Options) : CPDataset :=
  { root := opt.dataroot, datamode := opt.datamode, stage := opt.stage,
    data_list := opt.data_list, fine_height := opt.fine_height,
    fine_width := opt.fine_width, radius := opt.radius,
    im_names := opt.pairs.map Prod.fst, c_names := opt.pairs.map Prod.snd }

/-- The file system visible to `__getitem__`, keyed by asset name per
sub-folder.  Every asset is present and already decoded (missing-file and
malformed-record failures are outside the scope of this development).
`pose n` is the `pose_keypoints` list of the keypoint record reshaped to
(x, y, confidence) triples. -/
structure FS where
  cloth : String → ImgRGB
  clothMask : String → Gray
  warpCloth : String → ImgRGB
  warpMask : String → Gray
  image : String → ImgRGB
  imageParse : String → Gray
  pose : String → List (ℚ × ℚ × ℚ)
  grid : ImgRGB

/-- The sample record returned by `__getitem__` (lines 150-162).
`grid_image` is `some` tensor in the GMM stage and `none` otherwise (the
code stores the empty string `''`). -/
structure Sample where
  c_name : String
  im_name : String
  cloth : Tensor3
  cloth_mask : Tensor3
  image : Tensor3
  agnostic : Tensor3
  parse_cloth : Tensor3
  shape : Tensor3
  head : Tensor3
  pose_image : Tensor3
  grid_image : Option Tensor3

/-- The runtime failures `__getitem__` can raise that this development
models: Python list indexing (`IndexError`) and torch shape mismatch
(`RuntimeError` from broadcasting at line 105/106 or `torch.cat` at 142). -/
inductive BuildError where
  | indexError
  | shapeMismatch
deriving DecidableEq

/-- Python list indexing semantics: `l[i]` for `0 ≤ i < len` is positional,
for `-len ≤ i < 0` it wraps from the end, and anything else raises
`IndexError` (modelled by `none`). -/
def pyGet {α : Type} (l : List α) (i : Int) : Option α :=
  if 0 ≤ i then l.get? i.toNat
  else if (-i).toNat ≤ l.length then l.get? (l.length - (-i).toNat)
  else none

/-- Lines 52-57: the garment source image, selected by stage (`cloth/` for
GMM, `warp-cloth/` otherwise). -/
def clothSrc (d : CPDataset) (fs : FS) (c_name : String) : ImgRGB :=
  if d.stage = "GMM" then fs.cloth c_name else fs.warpCloth c_name

/-- Lines 52-57: the garment mask source, selected by stage (`cloth-mask/`
for GMM, `warp-mask/` otherwise). -/
def maskSrc (d : CPDataset) (fs : FS) (c_name : String) : Gray :=
  if d.stage = "GMM" then fs.clothMask c_name else fs.warpMask c_name

/-- The shape compatibility that torch enforces at runtime: the parse raster
must broadcast against the person image (line 105), and the person-derived
`im_h` must concatenate with the (H, W)-sized `shape` and `pose_map`
tensors (line 142). -/
def dimOK (d : CPDataset) (fs : FS) (im_name : String) : Bool :=
  ((fs.imageParse (parse_name im_name)).height == (fs.image im_name).height) &&
  ((fs.imageParse (parse_name im_name)).width == (fs.image im_name).width) &&
  ((fs.image im_name).height == d.fine_height) &&
  ((fs.image im_name).width == d.fine_width)

/-- Lines 50-164 of `__getitem__` after the index lookups: assembles the
sample record for resolved names.  Mirrors the source step by step; the
`print` at line 139 is a pure side effect and is omitted.  NOTE: the shared
pose canvas `im_pose` is created with a `Draw` handle (line 119) that is
never used, so the pose overlay is the transform of a blank canvas. -/
def buildSample (d : CPDataset) (fs : FS) (c_name im_name : String) : Sample :=
  let c := transform (clothSrc d fs c_name)
  let cm := maskTensor (maskSrc d fs c_name)
  let im := transform (fs.image im_name)
  let parseA := fs.imageParse (parse_name im_name)
  let byteShape : Gray :=
    { height := parseA.height, width := parseA.width,
      pix := fun y x => if 0 < parseA.pix y x then 255 else 0 }
  let down := resizeBilinear byteShape (d.fine_width / 16) (d.fine_height / 16)
  let up := resizeBilinear down d.fine_width d.fine_height
  let shapeT3 := transform (grayToRGB up)
  let shapeT := if shapeT3.channels ≠ 1 then sliceFirst shapeT3 else shapeT3
  let im_c : Tensor3 :=
    { channels := 3, height := im.height, width := im.width,
      val := fun ch y x => im.val ch y x * pcmAt parseA y x + (1 - pcmAt parseA y x) }
  let im_h : Tensor3 :=
    { channels := 3, height := im.height, width := im.width,
      val := fun ch y x => im.val ch y x * pheadAt parseA y x - (1 - pheadAt parseA y x) }
  let pose := fs.pose (pose_name im_name)
  let pm := poseMap d.fine_height d.fine_width d.radius pose
  let imPose := transform (grayToRGB (blankCanvas d.fine_height d.fine_width))
  let agnostic := cat3 shapeT im_h pm
  { c_name := c_name, im_name := im_name, cloth := c, cloth_mask := cm,
    image := im, agnostic := agnostic, parse_cloth := im_c, shape := shapeT,
    head := im_h, pose_image := imPose,
    grid_image := if d.stage = "GMM" then some (transform fs.grid) else none }

/-- `CPDataset.__getitem__` (lines 47-164): the two Python list lookups can
raise `IndexError`; the torch shape requirements are guarded by `dimOK`;
otherwise the sample is assembled by `buildSample`. -/
def getItem (d : CPDataset) (fs : FS) (index : Int) : Except BuildError Sample :=
  match pyGet d.c_names index, pyGet d.im_names index with
  | some c_name, some im_name =>
      if dimOK d fs im_name then Except.ok (buildSample d fs c_name im_name)
      else Except.error BuildError.shapeMismatch
  | _, _ => Except.error BuildError.indexError

/-- One pass of the torch `DataLoader` over an ordering of the dataset
indices: successive groups of `bs` indices, the last group possibly smaller
(`drop_last` defaults to `False`); the loader requires `bs ≥ 1`. -/
def chunks (bs : Nat) : List Nat → List (List Nat)
  | [] => []
  | x :: xs => (x :: xs.take (bs - 1)) :: chunks bs (xs.drop (bs - 1))
termination_by l => l.length
decreasing_by
  simp only [List.length_drop, List.length_cons]; omega

/-- The sequencer state of `CPDataLoader`: which pass the live iterator
belongs to and the batches it has not yet yielded.  `orders k` (a parameter
of the operations) is the ordering the sampler produces for pass `k` — the
insertion order when `shuffle` is off, a fresh permutation per pass when it
is on. -/
structure LoaderState where
  passIdx : Nat
  remaining : List (List Nat)

/-- `CPDataLoader.__init__` (line 185): open the iterator for pass 0. -/
def initLoader (orders : Nat → List Nat) (bs : Nat) : LoaderState :=
  { passIdx := 1, remaining := chunks bs (orders 0) }

/-- `CPDataLoader.next_batch` (lines 187-194): take the next batch; on
`StopIteration` re-open the iterator (next pass) and take its first batch;
a second `StopIteration` is not caught and propagates (`none`). -/
def nextBatch (orders : Nat → List Nat) (bs : Nat) (st : LoaderState) :
    Option (List Nat × LoaderState) :=
  match st.remaining with
  | b :: rest => some (b, { passIdx := st.passIdx, remaining := rest })
  | [] =>
    match chunks bs (orders st.passIdx) with
    | b :: rest => some (b, { passIdx := st.passIdx + 1, remaining := rest })
    | [] => none

/-! ### Helper lemmas -/

theorem pyGet_eq_none {α : Type} (l : List α) (i : Int) :
    pyGet l i = none ↔ (i < -(l.length : Int) ∨ (l.length : Int) ≤ i) := by
  unfold pyGet
  split_ifs with h1 h2
  · rw [List.get?_eq_none]
    omega
  · rw [List.get?_eq_none]
    omega
  · simp only [true_iff]
    omega

theorem getItem_ok_iff (d : CPDataset) (fs : FS) (i : Int) (s : Sample) :
    getItem d fs i = Except.ok s ↔
      ∃ cn imn, pyGet d.c_names i = some cn ∧ pyGet d.im_names i = some imn ∧
        dimOK d fs imn = true ∧ s = buildSample d fs cn imn := by
  unfold getItem
  cases hc : pyGet d.c_names i with
  | none => simp
  | some cn =>
    cases him : pyGet d.im_names i with
    | none => simp
    | some imn =>
      by_cases hd : dimOK d fs imn = true
      · simp only [hd, if_true]
        constructor
        · rintro h
          exact ⟨cn, imn, rfl, rfl, hd, (Except.ok.injEq _ _).mp h.symm⟩
        · rintro ⟨cn2, imn2, hcn, himn, -, hs⟩
          cases hcn; cases himn
          rw [hs]
      · simp [hd]

theorem dimOK_spec (d : CPDataset) (fs : FS) (imn : String) (h : dimOK d fs imn = true) :
    (fs.imageParse (parse_name imn)).height = (fs.image imn).height ∧
    (fs.imageParse (parse_name imn)).width = (fs.image imn).width ∧
    (fs.image imn).height = d.fine_height ∧
    (fs.image imn).width = d.fine_width := by
  simp only [dimOK, Bool.and_eq_true, beq_iff_eq] at h
  exact ⟨h.1.1.1, h.1.1.2, h.1.2, h.2⟩

theorem pcmAt_of_mem (p : Gray) (y x : Nat)
    (h : p.pix y x = 5 ∨ p.pix y x = 6 ∨ p.pix y x = 7) : pcmAt p y x = 1 := by
  rcases h with h | h | h <;> simp [pcmAt, indQ, h]

theorem pcmAt_of_not_mem (p : Gray) (y x : Nat)
    (h : ¬(p.pix y x = 5 ∨ p.pix y x = 6 ∨ p.pix y x = 7)) : pcmAt p y x = 0 := by
  push_neg at h
  simp [pcmAt, indQ, h.1, h.2.1, h.2.2]

theorem pheadAt_of_mem (p : Gray) (y x : Nat)
    (h : p.pix y x = 1 ∨ p.pix y x = 2 ∨ p.pix y x = 4 ∨ p.pix y x = 13) :
    pheadAt p y x = 1 := by
  rcases h with h | h | h | h <;> simp [pheadAt, indQ, h]

theorem pheadAt_of_not_mem (p : Gray) (y x : Nat)
    (h : ¬(p.pix y x = 1 ∨ p.pix y x = 2 ∨ p.pix y x = 4 ∨ p.pix y x = 13)) :
    pheadAt p y x = 0 := by
  push_neg at h
  simp [pheadAt, indQ, h.1, h.2.1, h.2.2.1, h.2.2.2]

theorem chunks_eq_nil_iff (bs : Nat) (l : List Nat) : chunks bs l = [] ↔ l = [] := by
  cases l <;> simp [chunks]

theorem replaceAll_of_no_match (pat repl : List Char) (l : List Char)
    (h : ¬ pat <:+: l) : replaceAll pat repl l = l := by
  induction l with
  | nil => rw [replaceAll]
  | cons c rest ih =>
    rw [replaceAll]
    have hnp : ¬ (pat ≠ [] ∧ pat <+: (c :: rest)) := by
      rintro ⟨-, t, ht⟩
      exact h ⟨[], t, by simpa using ht⟩
    rw [if_neg hnp, ih]
    intro hi
    obtain ⟨u, v, huv⟩ := hi
    exact h ⟨c :: u, v, by simp [huv]⟩

/-! ### Concrete exemplar inputs (used by witnesses and counterexamples) -/

/-- A constant 3-channel byte image at the reference resolution 256 × 192. -/
def imgEx : ImgRGB := { height := 256, width := 192, pix := fun _ _ _ => 100 }

/-- A constant grayscale mask at 256 × 192. -/
def grayEx : Gray := { height := 256, width := 192, pix := fun _ _ => 200 }

/-- A segmentation raster with label 5 (garment) in column 0, label 1 (head)
in column 1, background elsewhere. -/
def parseEx : Gray :=
  { height := 256, width := 192,
    pix := fun _ x => if x = 0 then 5 else if x = 1 then 1 else 0 }

/-- A keypoint record holding one invalid point (0, 0, 0). -/
def poseEx : List (ℚ × ℚ × ℚ) := [(0, 0, 0)]

/-- An exemplar file system: every name resolves to the constant assets. -/
def fsEx : FS :=
  { cloth := fun _ => imgEx, clothMask := fun _ => grayEx,
    warpCloth := fun _ => imgEx, warpMask := fun _ => grayEx,
    image := fun _ => imgEx, imageParse := fun _ => parseEx,
    pose := fun _ => poseEx, grid := imgEx }

/-- The default options of the `__main__` block, with a one-pair list. -/
def optEx : Options :=
  { dataroot := "data", datamode := "train", stage := "GMM",
    data_list := "train_pairs.txt", fine_height := 256, fine_width := 192,
    radius := 3, shuffle := false, batch_size := 4, workers := 1,
    pairs := [("person.jpg", "cloth.jpg")] }

/-- The exemplar dataset object. -/
def dEx : CPDataset := mkCPDataset optEx

/-- The sample the exemplar configuration builds at index 0. -/
def sEx : Sample := buildSample dEx fsEx "cloth.jpg" "person.jpg"

/-! ### Structural lemmas about the assembled sample -/

theorem cat3_val_third (a b c : Tensor3) (k y x : Nat) (h : a.channels + b.channels ≤ k) :
    (cat3 a b c).val k y x = c.val (k - a.channels - b.channels) y x := by
  simp only [cat3]
  rw [if_neg (by omega), if_neg (by omega)]

theorem poseMap_val_of_ge (h w r : Nat) (pose : List (ℚ × ℚ × ℚ)) (k y x : Nat)
    (hk : min 18 pose.length ≤ k) :
    (poseMap h w r pose).val k y x = 0 := by
  simp only [poseMap]
  rw [if_neg (by omega)]

theorem poseMap_val_of_lt (h w r : Nat) (pose : List (ℚ × ℚ × ℚ)) (k y x : Nat)
    (hk : k < min 18 pose.length) :
    (poseMap h w r pose).val k y x =
      normalizeQ (toTensor ((oneMap h w r (ptAt pose k).1 (ptAt pose k).2.1).pix y x)) := by
  simp only [poseMap]
  rw [if_pos hk]

theorem oneMap_of_invalid (h w r : Nat) (px py : ℚ) (hinv : px ≤ 1 ∨ py ≤ 1) :
    oneMap h w r px py = blankCanvas h w := by
  unfold oneMap
  rw [if_neg]
  rintro ⟨h1, h2⟩
  rcases hinv with h3 | h3 <;> linarith

theorem buildSample_shape_channels (d : CPDataset) (fs : FS) (cn imn : String) :
    (buildSample d fs cn imn).shape.channels = 1 := by
  simp [buildSample, transform, sliceFirst, grayToRGB]

theorem buildSample_head_channels (d : CPDataset) (fs : FS) (cn imn : String) :
    (buildSample d fs cn imn).head.channels = 3 := by
  simp [buildSample]

theorem buildSample_agnostic_eq (d : CPDataset) (fs : FS) (cn imn : String) :
    (buildSample d fs cn imn).agnostic =
      cat3 (buildSample d fs cn imn).shape (buildSample d fs cn imn).head
        (poseMap d.fine_height d.fine_width d.radius (fs.pose (pose_name imn))) := by
  simp only [buildSample]

theorem buildSample_im_name (d : CPDataset) (fs : FS) (cn imn : String) :
    (buildSample d fs cn imn).im_name = imn := by
  simp [buildSample]

theorem buildSample_c_name (d : CPDataset) (fs : FS) (cn imn : String) :
    (buildSample d fs cn imn).c_name = cn := by
  simp [buildSample]

theorem buildSample_parse_cloth_val (d : CPDataset) (fs : FS) (cn imn : String)
    (ch y x : Nat) :
    (buildSample d fs cn imn).parse_cloth.val ch y x =
      (transform (fs.image imn)).val ch y x * pcmAt (fs.imageParse (parse_name imn)) y x +
        (1 - pcmAt (fs.imageParse (parse_name imn)) y x) := by
  simp only [buildSample]

theorem buildSample_head_val (d : CPDataset) (fs : FS) (cn imn : String)
    (ch y x : Nat) :
    (buildSample d fs cn imn).head.val ch y x =
      (transform (fs.image imn)).val ch y x * pheadAt (fs.imageParse (parse_name imn)) y x -
        (1 - pheadAt (fs.imageParse (parse_name imn)) y x) := by
  simp only [buildSample]

theorem buildSample_cloth_mask (d : CPDataset) (fs : FS) (cn imn : String) :
    (buildSample d fs cn imn).cloth_mask = maskTensor (maskSrc d fs cn) := by
  simp only [buildSample]

/-! ### The claims -/

/-- C1: for every index the builder accepts, the `agnostic` tensor has
exactly 22 channels (1 body-shape + 3 head + 18 pose-heatmap) and spatial
dimensions equal to the configured (H, W), whatever the length of the
keypoint record; every pose-heatmap channel whose index is at least the
number of points in the record keeps its `torch.zeros` initialisation,
i.e. is all-zero. -/
theorem agnostic_has_22_channels (d : CPDataset) (fs : FS) (i : Int) (s : Sample)
    (hok : getItem d fs i = Except.ok s) :
    s.agnostic.channels = 22 ∧ s.agnostic.height = d.fine_height ∧
      s.agnostic.width = d.fine_width ∧
      ∀ k, k < 18 → (fs.pose (pose_name s.im_name)).length ≤ k →
        ∀ y x, s.agnostic.val (1 + 3 + k) y x = 0 := by
  obtain ⟨cn, imn, -, -, -, hs⟩ := (getItem_ok_iff d fs i s).mp hok
  subst hs
  refine ⟨rfl, rfl, rfl, ?_⟩
  intro k hk hlen y x
  rw [buildSample_im_name] at hlen
  rw [buildSample_agnostic_eq]
  rw [cat3_val_third]
  · rw [poseMap_val_of_ge]
    rw [buildSample_shape_channels, buildSample_head_channels]
    omega
  · rw [buildSample_shape_channels, buildSample_head_channels]
    omega

/-- C1 witness: the exemplar sample (keypoint record of length 1)
instantiates the theorem. -/
theorem agnostic_has_22_channels_witness :
    getItem dEx fsEx 0 = Except.ok sEx ∧
      (sEx.agnostic.channels = 22 ∧ sEx.agnostic.height = dEx.fine_height ∧
        sEx.agnostic.width = dEx.fine_width ∧
        ∀ k, k < 18 → (fsEx.pose (pose_name sEx.im_name)).length ≤ k →
          ∀ y x, sEx.agnostic.val (1 + 3 + k) y x = 0) :=
  ⟨rfl, agnostic_has_22_channels dEx fsEx 0 sEx rfl⟩

/-- C2 counterexample: with a keypoint record holding the single invalid
point (0, 0, 0), no marker is rendered, yet the corresponding pose-heatmap
channel of `agnostic` holds -1 — the normalized value of the blank canvas —
not 0, so the channel is NOT all-zero as the claim states. -/
theorem invalid_keypoint_channel_not_zero :
    getItem dEx fsEx 0 = Except.ok sEx ∧
      (fsEx.pose (pose_name sEx.im_name)).length = 1 ∧
      (ptAt (fsEx.pose (pose_name sEx.im_name)) 0).1 ≤ 1 ∧
      sEx.agnostic.val (1 + 3 + 0) 0 0 = -1 ∧ ((-1 : ℚ) ≠ 0) := by
  refine ⟨rfl, rfl, ?_, ?_, by norm_num⟩
  · simp [fsEx, poseEx, ptAt]
  · simp [sEx, dEx, mkCPDataset, optEx, fsEx, buildSample, cat3, poseMap, oneMap, blankCanvas,
      ptAt, poseEx, transform, grayToRGB, sliceFirst, toTensor, normalizeQ]
    norm_num

/-- C2 amended: for every keypoint among the first 18 whose x or y
coordinate is ≤ 1, no marker is rendered: the rasterized canvas stays
blank, so after the [-1, 1] normalization the keypoint's channel is
uniformly -1 (the blank value), not 0. -/
theorem invalid_keypoint_channel_blank (d : CPDataset) (fs : FS) (i : Int) (s : Sample)
    (hok : getItem d fs i = Except.ok s) (k : Nat)
    (hk : k < min 18 (fs.pose (pose_name s.im_name)).length)
    (hinv : (ptAt (fs.pose (pose_name s.im_name)) k).1 ≤ 1 ∨
            (ptAt (fs.pose (pose_name s.im_name)) k).2.1 ≤ 1) :
    ∀ y x, s.agnostic.val (1 + 3 + k) y x = -1 := by
  obtain ⟨cn, imn, -, -, -, hs⟩ := (getItem_ok_iff d fs i s).mp hok
  subst hs
  rw [buildSample_im_name] at hk hinv
  intro y x
  rw [buildSample_agnostic_eq]
  rw [cat3_val_third]
  · have harith : 1 + 3 + k - (buildSample d fs cn imn).shape.channels -
        (buildSample d fs cn imn).head.channels = k := by
      rw [buildSample_shape_channels, buildSample_head_channels]
      omega
    rw [harith, poseMap_val_of_lt _ _ _ _ _ _ _ hk, oneMap_of_invalid _ _ _ _ _ hinv]
    norm_num [blankCanvas, toTensor, normalizeQ]
  · rw [buildSample_shape_channels, buildSample_head_channels]
    omega

/-- C2 amended witness: keypoint 0 of the exemplar record is (0, 0), so its
channel is uniformly -1. -/
theorem invalid_keypoint_channel_blank_witness :
    getItem dEx fsEx 0 = Except.ok sEx ∧
      0 < min 18 (fsEx.pose (pose_name sEx.im_name)).length ∧
      (ptAt (fsEx.pose (pose_name sEx.im_name)) 0).1 ≤ 1 ∧
      ∀ y x, sEx.agnostic.val (1 + 3 + 0) y x = -1 := by
  refine ⟨rfl, by simp [fsEx, poseEx], by simp [fsEx, poseEx, ptAt], ?_⟩
  exact invalid_keypoint_channel_blank dEx fsEx 0 sEx rfl 0 (by simp [fsEx, poseEx])
    (Or.inl (by simp [fsEx, poseEx, ptAt]))

/-- C3: at every pixel, `parse_cloth` equals the normalized person-image
value where the segmentation label is in {5, 6, 7} and +1 elsewhere, and
`head` equals the normalized person-image value where the label is in
{1, 2, 4, 13} and -1 elsewhere (asymmetric fills: `im*pcm + (1-pcm)`
versus `im*phead - (1-phead)`). -/
theorem parse_cloth_and_head_fills (d : CPDataset) (fs : FS) (i : Int) (s : Sample)
    (hok : getItem d fs i = Except.ok s) :
    ∀ ch y x,
      (((fs.imageParse (parse_name s.im_name)).pix y x = 5 ∨
        (fs.imageParse (parse_name s.im_name)).pix y x = 6 ∨
        (fs.imageParse (parse_name s.im_name)).pix y x = 7) →
          s.parse_cloth.val ch y x = (transform (fs.image s.im_name)).val ch y x) ∧
      (¬((fs.imageParse (parse_name s.im_name)).pix y x = 5 ∨
         (fs.imageParse (parse_name s.im_name)).pix y x = 6 ∨
         (fs.imageParse (parse_name s.im_name)).pix y x = 7) →
          s.parse_cloth.val ch y x = 1) ∧
      (((fs.imageParse (parse_name s.im_name)).pix y x = 1 ∨
        (fs.imageParse (parse_name s.im_name)).pix y x = 2 ∨
        (fs.imageParse (parse_name s.im_name)).pix y x = 4 ∨
        (fs.imageParse (parse_name s.im_name)).pix y x = 13) →
          s.head.val ch y x = (transform (fs.image s.im_name)).val ch y x) ∧
      (¬((fs.imageParse (parse_name s.im_name)).pix y x = 1 ∨
         (fs.imageParse (parse_name s.im_name)).pix y x = 2 ∨
         (fs.imageParse (parse_name s.im_name)).pix y x = 4 ∨
         (fs.imageParse (parse_name s.im_name)).pix y x = 13) →
          s.head.val ch y x = -1) := by
  obtain ⟨cn, imn, -, -, -, hs⟩ := (getItem_ok_iff d fs i s).mp hok
  subst hs
  rw [buildSample_im_name]
  intro ch y x
  refine ⟨?_, ?_, ?_, ?_⟩
  · intro h
    rw [buildSample_parse_cloth_val, pcmAt_of_mem _ _ _ h]
    ring
  · intro h
    rw [buildSample_parse_cloth_val, pcmAt_of_not_mem _ _ _ h]
    ring
  · intro h
    rw [buildSample_head_val, pheadAt_of_mem _ _ _ h]
    ring
  · intro h
    rw [buildSample_head_val, pheadAt_of_not_mem _ _ _ h]
    ring

/-- C3 witness: the exemplar parse raster has label 5 at column 0 and
label 1 at column 1; the garment-membership case of the theorem applies. -/
theorem parse_cloth_and_head_fills_witness :
    getItem dEx fsEx 0 = Except.ok sEx ∧
      ((fsEx.imageParse (parse_name sEx.im_name)).pix 0 0 = 5 ∧
       (fsEx.imageParse (parse_name sEx.im_name)).pix 0 1 = 1) ∧
      (((fsEx.imageParse (parse_name sEx.im_name)).pix 0 0 = 5 ∨
        (fsEx.imageParse (parse_name sEx.im_name)).pix 0 0 = 6 ∨
        (fsEx.imageParse (parse_name sEx.im_name)).pix 0 0 = 7) →
          sEx.parse_cloth.val 0 0 0 = (transform (fsEx.image sEx.im_name)).val 0 0 0) := by
  refine ⟨rfl, ⟨rfl, rfl⟩, ?_⟩
  exact ((parse_cloth_and_head_fills dEx fsEx 0 sEx rfl) 0 0 0).1

/-- A 300-column garment mask, wider than the configured 192. -/
def grayWide : Gray := { height := 256, width := 300, pix := fun _ _ => 200 }

/-- The exemplar file system with the over-wide garment mask. -/
def fsWide : FS := { fsEx with clothMask := fun _ => grayWide }

/-- The sample built from the over-wide garment mask. -/
def sWide : Sample := buildSample dEx fsWide "cloth.jpg" "person.jpg"

/-- C4 counterexample: lines 64-67 never resize the garment mask, so with a
256 × 300 source mask the build succeeds and `cloth_mask` has width 300
while the configured width is 192 — the shape is NOT (1, H, W) for every
valid index. -/
theorem cloth_mask_shape_claim_fails :
    getItem dEx fsWide 0 = Except.ok sWide ∧
      sWide.cloth_mask.width = 300 ∧ dEx.fine_width = 192 ∧ (300 : Nat) ≠ 192 :=
  ⟨rfl, rfl, rfl, by decide⟩

/-- C4 amended: the sample's `cloth_mask` has 1 channel and the SOURCE
mask's spatial dimensions — hence (1, H, W) exactly when the source mask is
already at the configured resolution, since the code never resizes it —
holds only the values 0 and 1, and a pixel is 1 exactly when the source
grayscale intensity is ≥ 128. -/
theorem cloth_mask_binarized (d : CPDataset) (fs : FS) (i : Int) (s : Sample)
    (hok : getItem d fs i = Except.ok s) :
    s.cloth_mask.channels = 1 ∧
      s.cloth_mask.height = (maskSrc d fs s.c_name).height ∧
      s.cloth_mask.width = (maskSrc d fs s.c_name).width ∧
      ∀ y x, (s.cloth_mask.val 0 y x = 0 ∨ s.cloth_mask.val 0 y x = 1) ∧
        (s.cloth_mask.val 0 y x = 1 ↔ 128 ≤ (maskSrc d fs s.c_name).pix y x) := by
  obtain ⟨cn, imn, -, -, -, hs⟩ := (getItem_ok_iff d fs i s).mp hok
  subst hs
  rw [buildSample_c_name, buildSample_cloth_mask]
  refine ⟨rfl, rfl, rfl, ?_⟩
  intro y x
  constructor
  · simp only [maskTensor]
    split_ifs <;> simp
  · simp only [maskTensor]
    split_ifs with h
    · simp [h]
    · simp [h]

/-- C4 amended witness: the exemplar mask (constant intensity 200,
256 × 192) instantiates the theorem; there its dimensions coincide with the
configured resolution. -/
theorem cloth_mask_binarized_witness :
    getItem dEx fsEx 0 = Except.ok sEx ∧
      (sEx.cloth_mask.channels = 1 ∧
        sEx.cloth_mask.height = (maskSrc dEx fsEx sEx.c_name).height ∧
        sEx.cloth_mask.width = (maskSrc dEx fsEx sEx.c_name).width ∧
        ∀ y x, (sEx.cloth_mask.val 0 y x = 0 ∨ sEx.cloth_mask.val 0 y x = 1) ∧
          (sEx.cloth_mask.val 0 y x = 1 ↔ 128 ≤ (maskSrc dEx fsEx sEx.c_name).pix y x)) :=
  ⟨rfl, cloth_mask_binarized dEx fsEx 0 sEx rfl⟩

/-- C5 amended: the spatial tensors of a sample all share the configured
(H, W) provided the garment and garment-mask source assets already have
dimensions (H, W) (the person image and parse raster are forced to (H, W)
by the success of the build); the code itself never resizes the garment,
garment-mask or person assets. -/
theorem all_tensors_share_resolution (d : CPDataset) (fs : FS) (i : Int) (s : Sample)
    (hok : getItem d fs i = Except.ok s)
    (hc1 : (clothSrc d fs s.c_name).height = d.fine_height)
    (hc2 : (clothSrc d fs s.c_name).width = d.fine_width)
    (hm1 : (maskSrc d fs s.c_name).height = d.fine_height)
    (hm2 : (maskSrc d fs s.c_name).width = d.fine_width) :
    (s.cloth.height = d.fine_height ∧ s.cloth.width = d.fine_width) ∧
    (s.cloth_mask.height = d.fine_height ∧ s.cloth_mask.width = d.fine_width) ∧
    (s.image.height = d.fine_height ∧ s.image.width = d.fine_width) ∧
    (s.agnostic.height = d.fine_height ∧ s.agnostic.width = d.fine_width) ∧
    (s.parse_cloth.height = d.fine_height ∧ s.parse_cloth.width = d.fine_width) ∧
    (s.shape.height = d.fine_height ∧ s.shape.width = d.fine_width) ∧
    (s.head.height = d.fine_height ∧ s.head.width = d.fine_width) ∧
    (s.pose_image.height = d.fine_height ∧ s.pose_image.width = d.fine_width) := by
  obtain ⟨cn, imn, -, -, hd, hs⟩ := (getItem_ok_iff d fs i s).mp hok
  obtain ⟨-, -, hih, hiw⟩ := dimOK_spec d fs imn hd
  subst hs
  rw [buildSample_c_name] at hc1 hc2 hm1 hm2
  refine ⟨⟨?_, ?_⟩, ⟨?_, ?_⟩, ⟨?_, ?_⟩, ⟨rfl, rfl⟩, ⟨?_, ?_⟩, ⟨rfl, rfl⟩, ⟨?_, ?_⟩, ⟨rfl, rfl⟩⟩
  · show (clothSrc d fs cn).height = d.fine_height
    exact hc1
  · show (clothSrc d fs cn).width = d.fine_width
    exact hc2
  · show (maskSrc d fs cn).height = d.fine_height
    exact hm1
  · show (maskSrc d fs cn).width = d.fine_width
    exact hm2
  · show (fs.image imn).height = d.fine_height
    exact hih
  · show (fs.image imn).width = d.fine_width
    exact hiw
  · show (fs.image imn).height = d.fine_height
    exact hih
  · show (fs.image imn).width = d.fine_width
    exact hiw
  · show (fs.image imn).height = d.fine_height
    exact hih
  · show (fs.image imn).width = d.fine_width
    exact hiw

/-- C5 amended witness: the exemplar assets are all 256 × 192. -/
theorem all_tensors_share_resolution_witness :
    getItem dEx fsEx 0 = Except.ok sEx ∧
      (clothSrc dEx fsEx sEx.c_name).height = dEx.fine_height ∧
      (sEx.cloth.height = dEx.fine_height ∧ sEx.cloth.width = dEx.fine_width) ∧
      (sEx.agnostic.height = dEx.fine_height ∧ sEx.agnostic.width = dEx.fine_width) :=
  ⟨rfl, rfl,
    ((all_tensors_share_resolution dEx fsEx 0 sEx rfl rfl rfl rfl rfl).1),
    ((all_tensors_share_resolution dEx fsEx 0 sEx rfl rfl rfl rfl rfl).2.2.2.1)⟩

/-- A 300-row garment mask, taller than the configured 256. -/
def grayTall : Gray := { height := 300, width := 192, pix := fun _ _ => 200 }

/-- The exemplar file system with the over-tall garment mask. -/
def fsTall : FS := { fsEx with clothMask := fun _ => grayTall }

/-- The sample built from the over-tall garment mask. -/
def sTall : Sample := buildSample dEx fsTall "cloth.jpg" "person.jpg"

/-- C5 counterexample: the code never resizes the garment mask, so with a
300-row source mask the build still succeeds and `cloth_mask` has height
300 while the configured height is 256 — the spatial tensors do NOT share
(H, W) for arbitrary source-asset dimensions. -/
theorem cloth_mask_keeps_source_resolution :
    getItem dEx fsTall 0 = Except.ok sTall ∧
      sTall.cloth_mask.height = 300 ∧ dEx.fine_height = 256 ∧ (300 : Nat) ≠ 256 :=
  ⟨rfl, rfl, rfl, by decide⟩

/-- C6 amended: `__getitem__` raises IndexError exactly for indices outside
the PYTHON list range [-pair_count, pair_count); negative indices down to
-pair_count are accepted with Python wrap-around semantics rather than
rejected. -/
theorem index_error_iff_out_of_python_range (opt : Options) (fs : FS) (i : Int) :
    getItem (mkCPDataset opt) fs i = Except.error BuildError.indexError ↔
      (i < -(opt.pairs.length : Int) ∨ (opt.pairs.length : Int) ≤ i) := by
  have hlen1 : (mkCPDataset opt).c_names.length = opt.pairs.length := by
    simp [mkCPDataset]
  have hlen2 : (mkCPDataset opt).im_names.length = opt.pairs.length := by
    simp [mkCPDataset]
  unfold getItem
  cases hc : pyGet (mkCPDataset opt).c_names i with
  | none =>
    have hout := (pyGet_eq_none _ i).mp hc
    rw [hlen1] at hout
    cases him : pyGet (mkCPDataset opt).im_names i <;> simp [hout]
  | some cn =>
    have hin : ¬ (i < -((mkCPDataset opt).c_names.length : Int) ∨
        ((mkCPDataset opt).c_names.length : Int) ≤ i) := by
      intro h
      rw [← pyGet_eq_none] at h
      rw [hc] at h
      exact Option.noConfusion h
    rw [hlen1] at hin
    cases him : pyGet (mkCPDataset opt).im_names i with
    | none =>
      have hout := (pyGet_eq_none _ i).mp him
      rw [hlen2] at hout
      exact absurd hout hin
    | some imn =>
      by_cases hd : dimOK (mkCPDataset opt) fs imn = true
      · simp [hd, hin]
      · simp [hd, hin]

/-- C6 counterexample: on the one-pair exemplar dataset, index -1 lies
outside [0, 1) yet `__getitem__` returns a full sample (Python wrap-around)
instead of failing. -/
theorem negative_index_returns_sample :
    getItem dEx fsEx (-1) = Except.ok sEx ∧ ((-1 : Int) < 0 ∨ (1 : Int) ≤ (-1 : Int)) :=
  ⟨rfl, Or.inl (by norm_num)⟩

/-- C7 amended: for a NONEMPTY dataset (every pass ordering has the
dataset's positive length), `next_batch` always yields a batch from any
sequencer state — the stream is infinite and restarts transparently.  (The
empty dataset is the exception, see the counterexample.) -/
theorem nonempty_loader_never_exhausts (n : Nat) (orders : Nat → List Nat) (bs : Nat)
    (hlen : ∀ k, (orders k).length = n) (hn : 0 < n) (st : LoaderState) :
    (nextBatch orders bs st).isSome = true := by
  unfold nextBatch
  cases hr : st.remaining with
  | cons b rest => rfl
  | nil =>
    cases hch : chunks bs (orders st.passIdx) with
    | cons b rest => rfl
    | nil =>
      exfalso
      rw [chunks_eq_nil_iff] at hch
      have := hlen st.passIdx
      rw [hch] at this
      simp at this
      omega

/-- C7 amended witness: a one-element dataset with batch size 1. -/
theorem nonempty_loader_never_exhausts_witness :
    (nextBatch (fun _ => [0]) 1 (initLoader (fun _ => [0]) 1)).isSome = true :=
  nonempty_loader_never_exhausts 1 (fun _ => [0]) 1 (fun _ => rfl) (by decide)
    (initLoader (fun _ => [0]) 1)

/-- C7 counterexample: over the empty dataset every pass has no batches, so
the very first `next_batch` call re-opens the iterator, hits a second
StopIteration outside the `try`, and the exhaustion signal escapes to the
caller. -/
theorem empty_loader_exhausts :
    nextBatch (fun _ => ([] : List Nat)) 4 (initLoader (fun _ => []) 4) = none := by
  simp [initLoader, nextBatch, chunks]

/-- Options with an unrecognized stage value. -/
def optBogus : Options := { optEx with stage := "BOGUS" }

/-- The sample built under the unrecognized stage. -/
def sBogus : Sample := buildSample (mkCPDataset optBogus) fsEx "cloth.jpg" "person.jpg"

/-- C8 counterexample: constructing the dataset with the unknown stage
"BOGUS" succeeds (the constructor stores the value without validation) and
a full sample is subsequently built — nothing fails at construction time. -/
theorem unknown_stage_constructs_and_builds :
    (mkCPDataset optBogus).stage = "BOGUS" ∧
      getItem (mkCPDataset optBogus) fsEx 0 = Except.ok sBogus :=
  ⟨rfl, rfl⟩

/-- C8 amended: construction never validates the stage; any stage other
than "GMM" falls into the `else` branch of both stage tests, so an unknown
stage behaves exactly like the refinement stage "TOM" (warp-cloth assets,
no grid image). -/
theorem unknown_stage_behaves_as_refinement (opt : Options) (fs : FS) (i : Int)
    (h : opt.stage ≠ "GMM") :
    getItem (mkCPDataset opt) fs i = getItem (mkCPDataset { opt with stage := "TOM" }) fs i := by
  have htom : ¬ (("TOM" : String) = "GMM") := by decide
  have hdimeq : dimOK (mkCPDataset { opt with stage := "TOM" }) fs = dimOK (mkCPDataset opt) fs :=
    rfl
  have hceq : (mkCPDataset { opt with stage := "TOM" }).c_names = (mkCPDataset opt).c_names := rfl
  have himeq : (mkCPDataset { opt with stage := "TOM" }).im_names = (mkCPDataset opt).im_names :=
    rfl
  unfold getItem
  rw [hdimeq, hceq, himeq]
  cases pyGet (mkCPDataset opt).c_names i with
  | none => rfl
  | some cn =>
    cases pyGet (mkCPDataset opt).im_names i with
    | none => rfl
    | some imn =>
      dsimp only
      by_cases hd : dimOK (mkCPDataset opt) fs imn = true
      · rw [if_pos hd, if_pos hd]
        congr 1
        simp [buildSample, clothSrc, maskSrc, mkCPDataset, h, htom]
      · rw [if_neg hd, if_neg hd]

/-- C8 amended witness: the "BOGUS" stage builds the same sample as "TOM". -/
theorem unknown_stage_behaves_as_refinement_witness :
    optBogus.stage ≠ "GMM" ∧
      getItem (mkCPDataset optBogus) fsEx 0 =
        getItem (mkCPDataset { optBogus with stage := "TOM" }) fsEx 0 :=
  ⟨by decide, unknown_stage_behaves_as_refinement optBogus fsEx 0 (by decide)⟩

/-- C9: sample construction is deterministic — it is a pure function of the
configuration and the file contents (the source uses no randomness and no
mutable state in `__getitem__`), so two builds of the same index that
succeed return identical sample records in every field. -/
theorem build_is_deterministic (d : CPDataset) (fs : FS) (i : Int) (s₁ s₂ : Sample)
    (h₁ : getItem d fs i = Except.ok s₁) (h₂ : getItem d fs i = Except.ok s₂) :
    s₁ = s₂ := by
  rw [h₁] at h₂
  exact (Except.ok.injEq _ _).mp h₂

/-- C9 witness: two builds of the exemplar index agree. -/
theorem build_is_deterministic_witness :
    getItem dEx fsEx 0 = Except.ok sEx ∧ sEx = sEx :=
  ⟨rfl, build_is_deterministic dEx fsEx 0 sEx sEx rfl rfl⟩

/-- C10: the parse-raster and keypoint-record names are derived by
`str.replace` (every occurrence of ".jpg" replaced by ".png" resp.
"_keypoints.json"); when the person-image name contains no ".jpg" the
derivation is the identity, so both lookups use the unmodified name and
the transform itself raises no error. -/
theorem name_transform_identity_without_jpg (im_name : String)
    (h : ¬ (".jpg".data <:+: im_name.data)) :
    parse_name im_name = im_name ∧ pose_name im_name = im_name := by
  constructor
  · show pyReplace im_name ".jpg" ".png" = im_name
    unfold pyReplace
    rw [replaceAll_of_no_match _ _ _ h]
  · show pyReplace im_name ".jpg" "_keypoints.json" = im_name
    unfold pyReplace
    rw [replaceAll_of_no_match _ _ _ h]

/-- C10 witness: "person.png" contains no ".jpg", so both derived names are
the name itself. -/
theorem name_transform_identity_without_jpg_witness :
    ¬ (".jpg".data <:+: "person.png".data) ∧
      (parse_name "person.png" = "person.png" ∧ pose_name "person.png" = "person.png") :=
  ⟨by decide, name_transform_identity_without_jpg "person.png" (by decide)⟩

end CPVTON
